import Mathlib

/-
Verification of the Azure OpenAI chat-completion wrapper
(src/Backend/azure_open_ai_service.py).

The Python code is shallowly embedded: the remote completion endpoint and
the UTC clock are passed in as explicit parameters, and the requests sent
to the remote endpoint are returned as a trace so that propagation and
no-retry properties can be stated.  Timestamps are modelled as abstract
instants (Nat); the clock maps the index of a now() read inside one call
to the instant it returns.
-/

namespace AzureChat

/-- One timestamped conversation turn (models.ChatbotMessage). -/
structure ChatbotMessage where
  role : String
  content : String
  timestamp : Nat
deriving DecidableEq, Repr

/-- Input to get_chat_completion (models.ChatRequest). -/
structure ChatRequest where
  message : String
  history : List ChatbotMessage
deriving DecidableEq, Repr

/-- Output of get_chat_completion (models.ChatResponse). -/
structure ChatResponse where
  message : String
  history : List ChatbotMessage
deriving DecidableEq, Repr

/-- One configured prompt message inside LLMConfiguration. -/
structure ConfigMessage where
  role : String
  content : String
deriving DecidableEq, Repr

/-- llm_configuration.LLMConfiguration: model id, decoding parameters and
the static prompt message set. -/
structure LLMConfiguration where
  model : String
  max_completion_tokens : Nat
  temperature : Rat
  messages : List ConfigMessage
deriving DecidableEq, Repr

/-- llm_configuration.AzureOpenAIConnectionInfo. -/
structure AzureOpenAIConnectionInfo where
  api_version : String
  endpoint : String
deriving DecidableEq, Repr

/-- A role/content pair of the outbound messages list
(the dictionaries built in get_chat_completion). -/
structure OutboundMessage where
  role : String
  content : String
deriving DecidableEq, Repr

/-- The message object inside one remote choice. -/
structure RemoteChoiceMessage where
  content : String
deriving DecidableEq, Repr

/-- One choice of the remote completion response. -/
structure RemoteChoice where
  message : RemoteChoiceMessage
deriving DecidableEq, Repr

/-- The remote completion response body (choices list). -/
structure RemoteCompletion where
  choices : List RemoteChoice
deriving DecidableEq, Repr

/-- Failure kinds surfaced by the remote call (spec section 7 taxonomy). -/
inductive RemoteServiceError where
  | unauthorized
  | rateLimited
  | timeout
  | invalidResponse
  | unknown
deriving DecidableEq, Repr

/-- The request body sent to the remote chat-completions endpoint:
the arguments of self.client.chat.completions.create. -/
structure RemoteRequest where
  messages : List OutboundMessage
  max_tokens : Nat
  temperature : Rat
  top_p : Rat
  model : String
deriving DecidableEq, Repr

/-- Constructor failure: the ValueError raised by AzureOpenAIService.__init__
(called ConfigurationError by the spec). -/
inductive ConfigurationError where
  | valueError (msg : String)
deriving DecidableEq, Repr

/-- Observable effects of construction, in order: credential/token-provider
acquisition and client construction. -/
inductive InitEffect where
  | getBearerTokenProvider (scope : String)
  | buildClient (api_version : String) (endpoint : String)
deriving DecidableEq, Repr

/-- The long-lived authenticated client handle built at construction. -/
structure ClientHandle where
  api_version : String
  endpoint : String
  token_scope : String
deriving DecidableEq, Repr

/-- The state of an AzureOpenAIService object after construction. -/
structure AzureOpenAIService where
  model_config : LLMConfiguration
  client : ClientHandle
deriving DecidableEq, Repr

/-- The fixed audience scope passed to get_bearer_token_provider. -/
def cognitive_services_scope : String :=
  "https://cognitiveservices.azure.com/.default"

/-- AzureOpenAIService.__init__: the None checks run first; only when both
inputs are present does the constructor acquire the token provider and
build the client.  The second component is the ordered trace of effects. -/
def service_init (connection_info : Option AzureOpenAIConnectionInfo)
    (model_config : Option LLMConfiguration) :
    Except ConfigurationError AzureOpenAIService × List InitEffect :=
  match connection_info with
  | none =>
      (Except.error (ConfigurationError.valueError "connection_info cannot be None"), [])
  | some ci =>
      match model_config with
      | none =>
          (Except.error (ConfigurationError.valueError "model_config cannot be None"), [])
      | some mc =>
          (Except.ok
            { model_config := mc
              client :=
                { api_version := ci.api_version
                  endpoint := ci.endpoint
                  token_scope := cognitive_services_scope } },
            [InitEffect.getBearerTokenProvider cognitive_services_scope,
             InitEffect.buildClient ci.api_version ci.endpoint])

/-- AzureOpenAIService._get_system_messages: the list comprehension keeping
the configured messages whose role lowercases to "system", each emitted
with the literal role "system" and its content unchanged. -/
def get_system_messages (model_config : LLMConfiguration) : List OutboundMessage :=
  (model_config.messages.filter (fun msg => msg.role.toLower == "system")).map
    (fun msg => { role := "system", content := msg.content })

/-- The outbound messages list built at the top of get_chat_completion:
system messages, then the history mapped to role/content pairs appended by
the for loop, then the current user message. -/
def build_outbound_messages (model_config : LLMConfiguration) (request : ChatRequest) :
    List OutboundMessage :=
  get_system_messages model_config
    ++ request.history.map (fun message => { role := message.role, content := message.content })
    ++ [{ role := "user", content := request.message }]

/-- The body passed to self.client.chat.completions.create. -/
def build_remote_request (model_config : LLMConfiguration) (request : ChatRequest) :
    RemoteRequest :=
  { messages := build_outbound_messages model_config request
    max_tokens := model_config.max_completion_tokens
    temperature := model_config.temperature
    top_p := 1
    model := model_config.model }

/-- The result of AzureOpenAIService.get_chat_completion.  `remote` is the
external chat-completions endpoint; `clock` yields the instant of the i-th
datetime.now read inside this call.  An empty choices list (an IndexError
at response.choices[0] in the source) surfaces as the InvalidResponse
failure kind. -/
def get_chat_completion_result (model_config : LLMConfiguration)
    (remote : RemoteRequest → Except RemoteServiceError RemoteCompletion)
    (clock : Nat → Nat) (request : ChatRequest) :
    Except RemoteServiceError ChatResponse :=
  match remote (build_remote_request model_config request) with
  | Except.error e => Except.error e
  | Except.ok completion =>
      match completion.choices.head? with
      | none => Except.error RemoteServiceError.invalidResponse
      | some choice =>
          Except.ok
            { message := choice.message.content
              history := request.history
                ++ [{ role := "user", content := request.message, timestamp := clock 0 }]
                ++ [{ role := "assistant", content := choice.message.content,
                      timestamp := clock 1 }] }

/-- AzureOpenAIService.get_chat_completion together with the trace of
requests sent to the remote endpoint: the body performs exactly one
create call, so the trace is that single request on every path. -/
def get_chat_completion (model_config : LLMConfiguration)
    (remote : RemoteRequest → Except RemoteServiceError RemoteCompletion)
    (clock : Nat → Nat) (request : ChatRequest) :
    Except RemoteServiceError ChatResponse × List RemoteRequest :=
  (get_chat_completion_result model_config remote clock request,
   [build_remote_request model_config request])

/-- The method viewed as a state transformer on the service object: the
body reads self.model_config and self.client and assigns to neither, so
the resulting state is the incoming one. -/
def service_get_chat_completion (s : AzureOpenAIService)
    (remote : RemoteRequest → Except RemoteServiceError RemoteCompletion)
    (clock : Nat → Nat) (request : ChatRequest) :
    (Except RemoteServiceError ChatResponse × List RemoteRequest) × AzureOpenAIService :=
  (get_chat_completion s.model_config remote clock request, s)

/-- A concrete configuration used by the witnesses. -/
def sample_config : LLMConfiguration :=
  { model := "gpt-4o"
    max_completion_tokens := 100
    temperature := 1
    messages := [{ role := "System", content := "Be concise." }] }

/-- A concrete request with a two-turn history, used by the witnesses. -/
def sample_request : ChatRequest :=
  { message := "Hi"
    history := [{ role := "user", content := "earlier", timestamp := 5 },
                { role := "assistant", content := "prior reply", timestamp := 6 }] }

/-- A concrete remote completion with a single choice. -/
def sample_completion : RemoteCompletion :=
  { choices := [{ message := { content := "Hello!" } }] }

/-- A remote endpoint that always answers with sample_completion. -/
def sample_remote : RemoteRequest → Except RemoteServiceError RemoteCompletion :=
  fun _ => Except.ok sample_completion

/-- A remote endpoint that always fails with a timeout. -/
def failing_remote : RemoteRequest → Except RemoteServiceError RemoteCompletion :=
  fun _ => Except.error RemoteServiceError.timeout

/-- A clock whose consecutive reads give distinct instants 100 and 101. -/
def sample_clock : Nat → Nat := fun i => 100 + i

/-- C1: for every request, get_chat_completion sends exactly one remote
request, and its outbound messages list is: every configured message whose
role matches "system" case-insensitively, first and in configured order;
then every history entry mapped to a role/content pair in order; then one
final pair with role "user" and content request.message. -/
theorem outbound_message_list_order (model_config : LLMConfiguration)
    (remote : RemoteRequest → Except RemoteServiceError RemoteCompletion)
    (clock : Nat → Nat) (request : ChatRequest) :
    (get_chat_completion model_config remote clock request).2 =
      [build_remote_request model_config request] ∧
    (build_remote_request model_config request).messages =
      ((model_config.messages.filter (fun msg => msg.role.toLower == "system")).map
          (fun msg => ({ role := "system", content := msg.content } : OutboundMessage)))
        ++ request.history.map
            (fun m => ({ role := m.role, content := m.content } : OutboundMessage))
        ++ [{ role := "user", content := request.message }] := ⟨rfl, rfl⟩

/-- C2: whenever get_chat_completion returns a ChatResponse, its history is
two entries longer than the request's history. -/
theorem history_grows_by_two (model_config : LLMConfiguration)
    (remote : RemoteRequest → Except RemoteServiceError RemoteCompletion)
    (clock : Nat → Nat) (request : ChatRequest) (resp : ChatResponse)
    (h : (get_chat_completion model_config remote clock request).1 = Except.ok resp) :
    resp.history.length = request.history.length + 2 := by
  simp only [get_chat_completion, get_chat_completion_result] at h
  cases hr : remote (build_remote_request model_config request) with
  | error e => rw [hr] at h; exact absurd h (by simp)
  | ok completion =>
      rw [hr] at h
      dsimp only at h
      cases hc : completion.choices.head? with
      | none => rw [hc] at h; exact absurd h (by simp)
      | some choice =>
          rw [hc] at h
          simp only [Except.ok.injEq] at h
          subst h
          simp [List.length_append]

/-- C2 witness: the theorem applied at a concrete run with a two-entry
history. -/
theorem history_grows_by_two_witness :
    ({ message := "Hello!"
       history := sample_request.history
         ++ [{ role := "user", content := "Hi", timestamp := 100 }]
         ++ [{ role := "assistant", content := "Hello!", timestamp := 101 }] }
        : ChatResponse).history.length = sample_request.history.length + 2 :=
  history_grows_by_two sample_config sample_remote sample_clock sample_request _ rfl

/-- Inversion of a successful call: the remote answered, the choices list
was non-empty, and the response is the literal value built by the source. -/
theorem get_chat_completion_ok_inv (model_config : LLMConfiguration)
    (remote : RemoteRequest → Except RemoteServiceError RemoteCompletion)
    (clock : Nat → Nat) (request : ChatRequest) (resp : ChatResponse)
    (h : (get_chat_completion model_config remote clock request).1 = Except.ok resp) :
    ∃ completion choice,
      remote (build_remote_request model_config request) = Except.ok completion ∧
      completion.choices.head? = some choice ∧
      resp = { message := choice.message.content
               history := request.history
                 ++ [{ role := "user", content := request.message, timestamp := clock 0 }]
                 ++ [{ role := "assistant", content := choice.message.content,
                       timestamp := clock 1 }] } := by
  simp only [get_chat_completion, get_chat_completion_result] at h
  cases hr : remote (build_remote_request model_config request) with
  | error e => rw [hr] at h; exact absurd h (by simp)
  | ok completion =>
      rw [hr] at h
      dsimp only at h
      cases hc : completion.choices.head? with
      | none => rw [hc] at h; exact absurd h (by simp)
      | some choice =>
          rw [hc] at h
          simp only [Except.ok.injEq] at h
          exact ⟨completion, choice, rfl, hc, h.symm⟩

/-- C3: on every successful call the second-to-last history entry of the
response carries role "user" and the request's message, and the last entry
carries role "assistant" and the response's message. -/
theorem last_two_history_entries (model_config : LLMConfiguration)
    (remote : RemoteRequest → Except RemoteServiceError RemoteCompletion)
    (clock : Nat → Nat) (request : ChatRequest) (resp : ChatResponse)
    (h : (get_chat_completion model_config remote clock request).1 = Except.ok resp) :
    (resp.history.dropLast.getLast?).map (fun m => (m.role, m.content)) =
      some ("user", request.message) ∧
    (resp.history.getLast?).map (fun m => (m.role, m.content)) =
      some ("assistant", resp.message) := by
  obtain ⟨completion, choice, -, -, hresp⟩ :=
    get_chat_completion_ok_inv model_config remote clock request resp h
  subst hresp
  constructor
  · simp [List.dropLast_concat, List.getLast?_concat]
  · simp [List.getLast?_concat]

/-- C3 witness: the theorem applied at a concrete run. -/
theorem last_two_history_entries_witness :
    ((({ message := "Hello!"
         history := sample_request.history
           ++ [{ role := "user", content := "Hi", timestamp := 100 }]
           ++ [{ role := "assistant", content := "Hello!", timestamp := 101 }] }
        : ChatResponse).history.dropLast.getLast?).map (fun m => (m.role, m.content)) =
      some ("user", sample_request.message)) ∧
    ((({ message := "Hello!"
         history := sample_request.history
           ++ [{ role := "user", content := "Hi", timestamp := 100 }]
           ++ [{ role := "assistant", content := "Hello!", timestamp := 101 }] }
        : ChatResponse).history.getLast?).map (fun m => (m.role, m.content)) =
      some ("assistant", "Hello!")) :=
  last_two_history_entries sample_config sample_remote sample_clock sample_request _ rfl

/-- C4: the response's history extends the request's history: its prefix of
the request history's length is exactly the request history, unchanged (the
source copies the list rather than mutating it). -/
theorem request_history_not_mutated (model_config : LLMConfiguration)
    (remote : RemoteRequest → Except RemoteServiceError RemoteCompletion)
    (clock : Nat → Nat) (request : ChatRequest) (resp : ChatResponse)
    (h : (get_chat_completion model_config remote clock request).1 = Except.ok resp) :
    resp.history.take request.history.length = request.history := by
  obtain ⟨completion, choice, -, -, hresp⟩ :=
    get_chat_completion_ok_inv model_config remote clock request resp h
  subst hresp
  simp only [List.append_assoc]
  exact List.take_left request.history _

/-- C4 witness: the theorem applied at a concrete run. -/
theorem request_history_not_mutated_witness :
    ({ message := "Hello!"
       history := sample_request.history
         ++ [{ role := "user", content := "Hi", timestamp := 100 }]
         ++ [{ role := "assistant", content := "Hello!", timestamp := 101 }] }
      : ChatResponse).history.take sample_request.history.length =
      sample_request.history :=
  request_history_not_mutated sample_config sample_remote sample_clock sample_request _ rfl

/-- C5: when the remote call succeeds with a first choice, the reply text is
exactly that choice's message content, and this same string is the returned
response.message and the content of the appended assistant history entry. -/
theorem reply_is_first_choice_content (model_config : LLMConfiguration)
    (remote : RemoteRequest → Except RemoteServiceError RemoteCompletion)
    (clock : Nat → Nat) (request : ChatRequest)
    (completion : RemoteCompletion) (choice : RemoteChoice)
    (hremote : remote (build_remote_request model_config request) = Except.ok completion)
    (hchoice : completion.choices.head? = some choice) :
    (get_chat_completion model_config remote clock request).1 =
      Except.ok
        { message := choice.message.content
          history := request.history
            ++ [{ role := "user", content := request.message, timestamp := clock 0 }]
            ++ [{ role := "assistant", content := choice.message.content,
                  timestamp := clock 1 }] } := by
  simp only [get_chat_completion, get_chat_completion_result, hremote, hchoice]

/-- C5 witness: the theorem applied at a concrete run whose first choice
content is "Hello!". -/
theorem reply_is_first_choice_content_witness :
    (get_chat_completion sample_config sample_remote sample_clock sample_request).1 =
      Except.ok
        { message := "Hello!"
          history := sample_request.history
            ++ [{ role := "user", content := "Hi", timestamp := 100 }]
            ++ [{ role := "assistant", content := "Hello!", timestamp := 101 }] } :=
  reply_is_first_choice_content sample_config sample_remote sample_clock sample_request
    sample_completion { message := { content := "Hello!" } } rfl rfl

/-- C6: constructing the service with an absent ConnectionInfo or an absent
ModelConfig fails with a ConfigurationError, and the effect trace is empty:
no token-provider acquisition and no client construction happens. -/
theorem init_absent_input_fails (connection_info : Option AzureOpenAIConnectionInfo)
    (model_config : Option LLMConfiguration)
    (h : connection_info = none ∨ model_config = none) :
    (∃ e, (service_init connection_info model_config).1 = Except.error e) ∧
    (service_init connection_info model_config).2 = [] := by
  cases connection_info with
  | none => exact ⟨⟨ConfigurationError.valueError "connection_info cannot be None", rfl⟩, rfl⟩
  | some ci =>
      cases model_config with
      | none => exact ⟨⟨ConfigurationError.valueError "model_config cannot be None", rfl⟩, rfl⟩
      | some mc => rcases h with h | h <;> exact absurd h (by simp)

/-- C6 witness: the theorem applied with both inputs absent. -/
theorem init_absent_input_fails_witness :
    (∃ e, (service_init (none : Option AzureOpenAIConnectionInfo)
        (none : Option LLMConfiguration)).1 = Except.error e) ∧
    (service_init (none : Option AzureOpenAIConnectionInfo)
        (none : Option LLMConfiguration)).2 = [] :=
  init_absent_input_fails none none (Or.inl rfl)

/-- C7: when the remote call fails with error e, get_chat_completion
returns exactly that error (no ChatResponse, hence no new history) and the
trace shows a single remote request: the failure is propagated unchanged
and the call is not retried. -/
theorem remote_failure_propagates (model_config : LLMConfiguration)
    (remote : RemoteRequest → Except RemoteServiceError RemoteCompletion)
    (clock : Nat → Nat) (request : ChatRequest) (e : RemoteServiceError)
    (h : remote (build_remote_request model_config request) = Except.error e) :
    get_chat_completion model_config remote clock request =
      (Except.error e, [build_remote_request model_config request]) := by
  simp only [get_chat_completion, get_chat_completion_result, h]

/-- C7 witness: the theorem applied with a remote endpoint that always
times out. -/
theorem remote_failure_propagates_witness :
    get_chat_completion sample_config failing_remote sample_clock sample_request =
      (Except.error RemoteServiceError.timeout,
       [build_remote_request sample_config sample_request]) :=
  remote_failure_propagates sample_config failing_remote sample_clock sample_request
    RemoteServiceError.timeout rfl

/-- C8 counterexample: the source reads datetime.now twice, once per
appended entry, so the two timestamps are two distinct clock reads.  With a
clock whose reads 0 and 1 return instants 0 and 1, the successful run below
appends a user entry timestamped 0 and an assistant entry timestamped 1:
the two timestamps are not a single shared call instant. -/
theorem appended_timestamps_differ :
    (get_chat_completion sample_config sample_remote (fun i => i) sample_request).1 =
      Except.ok
        { message := "Hello!"
          history := sample_request.history
            ++ [{ role := "user", content := "Hi", timestamp := 0 }]
            ++ [{ role := "assistant", content := "Hello!", timestamp := 1 }] } ∧
    ((0 : Nat) = 1 → False) := ⟨rfl, by decide⟩

/-- C8 amended: on every successful call the two appended entries carry
timestamps taken during the call, as the first and second datetime.now
reads of that call (user entry from read 0, assistant entry from read 1);
the two reads are consecutive but need not return the same instant. -/
theorem appended_timestamps_are_call_clock_reads (model_config : LLMConfiguration)
    (remote : RemoteRequest → Except RemoteServiceError RemoteCompletion)
    (clock : Nat → Nat) (request : ChatRequest) (resp : ChatResponse)
    (h : (get_chat_completion model_config remote clock request).1 = Except.ok resp) :
    (resp.history.dropLast.getLast?).map ChatbotMessage.timestamp = some (clock 0) ∧
    (resp.history.getLast?).map ChatbotMessage.timestamp = some (clock 1) := by
  obtain ⟨completion, choice, -, -, hresp⟩ :=
    get_chat_completion_ok_inv model_config remote clock request resp h
  subst hresp
  constructor
  · simp [List.dropLast_concat, List.getLast?_concat]
  · simp [List.getLast?_concat]

/-- C8 amended witness: the theorem applied at a concrete run whose clock
reads return 100 and 101. -/
theorem appended_timestamps_are_call_clock_reads_witness :
    ((({ message := "Hello!"
         history := sample_request.history
           ++ [{ role := "user", content := "Hi", timestamp := 100 }]
           ++ [{ role := "assistant", content := "Hello!", timestamp := 101 }] }
        : ChatResponse).history.dropLast.getLast?).map ChatbotMessage.timestamp =
      some (sample_clock 0)) ∧
    ((({ message := "Hello!"
         history := sample_request.history
           ++ [{ role := "user", content := "Hi", timestamp := 100 }]
           ++ [{ role := "assistant", content := "Hello!", timestamp := 101 }] }
        : ChatResponse).history.getLast?).map ChatbotMessage.timestamp =
      some (sample_clock 1)) :=
  appended_timestamps_are_call_clock_reads sample_config sample_remote sample_clock
    sample_request _ rfl

/-- C9: a call never changes the service state (ModelConfig and client
handle are untouched), and therefore the outcome of a call does not depend
on prior calls: running a request after another call gives exactly the
result of running it on the fresh state. -/
theorem get_chat_completion_stateless (s : AzureOpenAIService)
    (remote : RemoteRequest → Except RemoteServiceError RemoteCompletion)
    (clock : Nat → Nat) (request : ChatRequest) :
    (service_get_chat_completion s remote clock request).2 = s ∧
    ∀ (remote2 : RemoteRequest → Except RemoteServiceError RemoteCompletion)
      (clock2 : Nat → Nat) (request2 : ChatRequest),
      (service_get_chat_completion
          (service_get_chat_completion s remote clock request).2
          remote2 clock2 request2).1 =
        (service_get_chat_completion s remote2 clock2 request2).1 :=
  ⟨rfl, fun _ _ _ => rfl⟩

/-- C10: the configured messages whose role does not lowercase to "system"
contribute nothing to the system-message list, and each kept message is
emitted with the literal lowercase role "system" and its content verbatim:
the list is exactly the case-insensitive filter of the configured messages,
in order, re-tagged with role "system". -/
theorem system_messages_filtered_and_lowercased (model_config : LLMConfiguration) :
    get_system_messages model_config =
      (model_config.messages.filter (fun msg => msg.role.toLower == "system")).map
        (fun msg => ({ role := "system", content := msg.content } : OutboundMessage)) ∧
    (∀ o ∈ get_system_messages model_config, o.role = "system") ∧
    (get_system_messages model_config).map OutboundMessage.content =
      (model_config.messages.filter
        (fun msg => msg.role.toLower == "system")).map ConfigMessage.content := by
  refine ⟨rfl, ?_, ?_⟩
  · intro o ho
    simp only [get_system_messages, List.mem_map] at ho
    obtain ⟨msg, -, rfl⟩ := ho
    rfl
  · simp [get_system_messages, Function.comp]

end AzureChat
